import Mathlib

/-!
Shallow embedding of the muse-tts server (src/server.py).

The Python module is stateful (a module-global engine cache and a pipeline
cache) and effectful (imports, subprocess playback, temp files).  We model:

* the runtime environment (which backend imports succeed, what each audio
  player subprocess does, what the kokoro pipeline yields, which calls raise)
  as an explicit `Env` record;
* the module-global mutable state (`_engine`, `_kokoro_pipelines`) as a `St`
  record threaded through the functions;
* the observable side effects (import probes, backend synthesis calls, player
  subprocess invocations, file writes and removals, stderr log lines) as a
  trace of `Event`s returned alongside each result;
* Python floats as rationals (the only float operations the code performs on
  `speed` are comparisons, `min`/`max` and truthiness of `0`, which the
  rational model reproduces exactly);
* Python exceptions as `Except String`, caught exactly where the source has
  `try`/`except`.
-/

/-- Outcome of running one external player binary with `subprocess.run`:
it succeeds, the binary is missing (`FileNotFoundError`), it exits non-zero
(`CalledProcessError` from `check=True`), or some other exception occurs. -/
inductive PlayerOutcome where
  | success
  | notFound
  | exitNonZero
  | otherError (msg : String)
  deriving DecidableEq

/-- Observable side effects of a run, in order of occurrence. -/
inductive Event where
  | probeMlx
  | probeKokoro
  | synthMlx (text voice : String) (speed : ℚ)
  | synthKokoro (text voice : String) (speed : ℚ)
  | writeWav (path : String)
  | tryPlay (cmd : List String)
  | removeAttempt (path : String) (ok : Bool)
  | logMsg (msg : String)
  deriving DecidableEq

/-- The runtime environment the Python process executes in: which imports
succeed, configured defaults (`KOKORO_VOICE`/`KOKORO_SPEED`), the OS name,
what each player binary does, which backend calls raise, what the kokoro
pipeline yields, the name `tempfile` hands out, and whether `os.unlink`
raises. -/
structure Env where
  mlxAvailable : Bool
  kokoroAvailable : Bool
  soundfileAvailable : Bool
  kokoroVoice : String
  kokoroSpeed : ℚ
  system : String
  playerOutcome : String → PlayerOutcome
  mlxRaises : Option String
  kpipelineRaises : Option String
  kokoroRaises : Option String
  sfWriteRaises : Option String
  kokoroChunks : List (List Int)
  tmpName : String
  unlinkRaises : Bool

/-- Module-global mutable state: the `_engine` cache and the keys of the
`_kokoro_pipelines` dict. -/
structure St where
  engineCache : Option String
  kokoroPipelines : List String
  deriving DecidableEq

/-- Model of `detect_engine`: returns the cached engine if set, otherwise probes the
two imports in order and locks the result into the cache.  Result:
(engine string, new cache, trace). -/
def detect_engine (env : Env) (cache : Option String) :
    String × Option String × List Event :=
  match cache with
  | some e => (e, some e, [])
  | none =>
    if env.mlxAvailable then ("mlx", some "mlx", [Event.probeMlx])
    else if env.kokoroAvailable then
      ("kokoro", some "kokoro", [Event.probeMlx, Event.probeKokoro])
    else ("none", some "none", [Event.probeMlx, Event.probeKokoro])

/-- The `VOICES` table: language group name to list of (voice id, display
name), in source order. -/
def VOICES : List (String × List (String × String)) :=
  [("American English (Female)",
    [("af_alloy", "Alloy"), ("af_aoede", "Aoede"), ("af_bella", "Bella"),
     ("af_heart", "Heart"), ("af_jessica", "Jessica"), ("af_kore", "Kore"),
     ("af_nicole", "Nicole"), ("af_nova", "Nova"), ("af_river", "River"),
     ("af_sarah", "Sarah"), ("af_sky", "Sky")]),
   ("American English (Male)",
    [("am_adam", "Adam"), ("am_echo", "Echo"), ("am_eric", "Eric"),
     ("am_fenrir", "Fenrir"), ("am_liam", "Liam"), ("am_michael", "Michael"),
     ("am_onyx", "Onyx"), ("am_puck", "Puck"), ("am_santa", "Santa")]),
   ("British English (Female)",
    [("bf_alice", "Alice"), ("bf_emma", "Emma"), ("bf_isabella", "Isabella"),
     ("bf_lily", "Lily")]),
   ("British English (Male)",
    [("bm_daniel", "Daniel"), ("bm_fable", "Fable"), ("bm_george", "George"),
     ("bm_lewis", "Lewis")]),
   ("Spanish", [("ef_dora", "Dora"), ("em_alex", "Alex"), ("em_santa", "Santa")]),
   ("French", [("ff_siwis", "Siwis")]),
   ("Hindi",
    [("hf_alpha", "Alpha"), ("hf_beta", "Beta"), ("hm_omega", "Omega"),
     ("hm_psi", "Psi")]),
   ("Italian", [("if_sara", "Sara"), ("im_nicola", "Nicola")]),
   ("Japanese",
    [("jf_alpha", "Alpha"), ("jf_gongitsune", "Gongitsune"),
     ("jf_nezumi", "Nezumi"), ("jf_tebukuro", "Tebukuro"),
     ("jm_kumo", "Kumo")]),
   ("Portuguese",
    [("pf_dora", "Dora"), ("pm_alex", "Alex"), ("pm_santa", "Santa")]),
   ("Mandarin Chinese",
    [("zf_xiaobei", "Xiaobei"), ("zf_xiaoni", "Xiaoni"),
     ("zf_xiaoxiao", "Xiaoxiao"), ("zf_xiaoyi", "Xiaoyi"),
     ("zm_yunjian", "Yunjian"), ("zm_yunxi", "Yunxi"),
     ("zm_yunxia", "Yunxia"), ("zm_yunyang", "Yunyang")])]

/-- Model of `ALL_VOICE_IDS`: the flat collection of registered voice ids.  The source
builds a set; since the ids are pairwise distinct (proved below in the C9
theorem via `Nodup`), a list models it faithfully, with membership as the
set-membership test and length as the set size. -/
def ALL_VOICE_IDS : List String :=
  (VOICES.flatMap Prod.snd).map Prod.fst

/-- Model of `LANG_CODES`: language code to voice-id prefixes, in source order. -/
def LANG_CODES : List (String × List String) :=
  [("a", ["af_", "am_"]), ("b", ["bf_", "bm_"]), ("e", ["ef_", "em_"]),
   ("f", ["ff_"]), ("h", ["hf_", "hm_"]), ("i", ["if_", "im_"]),
   ("j", ["jf_", "jm_"]), ("p", ["pf_", "pm_"]), ("z", ["zf_", "zm_"])]

/-- Does the first character list occur at the start of the second
(Python `str.startswith`)? -/
def listStarts : List Char → List Char → Bool
  | [], _ => true
  | _ :: _, [] => false
  | a :: as, b :: bs => a = b && listStarts as bs

/-- Does the first character list occur contiguously anywhere in the second
(Python substring containment, `needle in hay`)? -/
def charsContains (nee : List Char) : List Char → Bool
  | [] => nee.isEmpty
  | c :: t => listStarts nee (c :: t) || charsContains nee t

/-- Python `needle in hay` on strings. -/
def strContainsSub (hay nee : String) : Bool :=
  charsContains nee.data hay.data

/-- Python `str.lower`, on the ASCII names this program handles. -/
def lowerStr (s : String) : String :=
  String.mk (s.data.map Char.toLower)

/-- Model of `get_lang_code`: first language code whose prefix list matches the voice
id, defaulting to "a". -/
def get_lang_code (voice_id : String) : String :=
  match LANG_CODES.find? (fun p => p.2.any (fun pre => listStarts pre.data voice_id.data)) with
  | some p => p.1
  | none => "a"

/-- The ordered Linux player candidate commands from `play_audio`. -/
def linuxCandidates (filepath : String) : List (List String) :=
  [["aplay", filepath], ["paplay", filepath],
   ["ffplay", "-nodisp", "-autoexit", filepath]]

/-- The PowerShell playback command built on Windows. -/
def psCommand (filepath : String) : List String :=
  ["powershell", "-c",
   "(New-Object Media.SoundPlayer \x27" ++ filepath ++ "\x27).PlaySync()"]

/-- Rendering of the exception a failed player run raises, used in the
logged diagnostic. -/
def errText : PlayerOutcome → String
  | PlayerOutcome.success => ""
  | PlayerOutcome.notFound => "FileNotFoundError"
  | PlayerOutcome.exitNonZero => "CalledProcessError"
  | PlayerOutcome.otherError m => m

/-- The install-guidance line logged when no Linux player is found. -/
def noPlayerMsg : String :=
  "MUSE TTS: No audio player found. Install alsa-utils, pulseaudio-utils, or ffmpeg."

/-- The Linux branch of `play_audio`: try each candidate in order; a
`FileNotFoundError` is caught by the inner `except` and the loop continues;
any other exception escapes the loop to the outer handler, which logs and
returns `False`; an exhausted list logs install guidance and returns
`False`. -/
def linuxChain (env : Env) : List (List String) → Bool × List Event
  | [] => (false, [Event.logMsg noPlayerMsg])
  | cmd :: rest =>
    match env.playerOutcome (cmd.headD "") with
    | PlayerOutcome.success => (true, [Event.tryPlay cmd])
    | PlayerOutcome.notFound =>
      let r := linuxChain env rest
      (r.1, Event.tryPlay cmd :: r.2)
    | o =>
      (false, [Event.tryPlay cmd,
               Event.logMsg ("MUSE TTS playback error: " ++ errText o)])

/-- Model of `play_audio`: OS-conditional playback dispatcher.  On Darwin and Windows
a single player is run with `check=True` and any exception is caught by the
outer handler (log + `False`); otherwise the Linux candidate chain runs. -/
def play_audio (env : Env) (filepath : String) : Bool × List Event :=
  if env.system = "Darwin" then
    match env.playerOutcome "afplay" with
    | PlayerOutcome.success => (true, [Event.tryPlay ["afplay", filepath]])
    | o => (false, [Event.tryPlay ["afplay", filepath],
                    Event.logMsg ("MUSE TTS playback error: " ++ errText o)])
  else if env.system = "Windows" then
    match env.playerOutcome "powershell" with
    | PlayerOutcome.success => (true, [Event.tryPlay (psCommand filepath)])
    | o => (false, [Event.tryPlay (psCommand filepath),
                    Event.logMsg ("MUSE TTS playback error: " ++ errText o)])
  else
    linuxChain env (linuxCandidates filepath)

/-- Model of `_generate_mlx`: import `generate_audio` (raises if mlx_audio is absent),
call it (an `Env`-chosen exception may escape to the caller), then play the
fixed output path.  Note: no cleanup of `./audio_000.wav`. -/
def _generate_mlx (env : Env) (st : St) (text voice : String) (speed : ℚ) :
    Except String Bool × St × List Event :=
  if env.mlxAvailable = false then
    (Except.error "ImportError: mlx_audio", st, [])
  else
    match env.mlxRaises with
    | some e => (Except.error e, st, [Event.synthMlx text voice speed])
    | none =>
      let r := play_audio env "./audio_000.wav"
      (Except.ok r.1, st, Event.synthMlx text voice speed :: r.2)

/-- The chunk-collection, zero-chunk check, temp-file write, playback and
cleanup tail of `_generate_kokoro`, after the pipeline lookup succeeded.
`tr0` is the trace accumulated so far. -/
def kokoroRun (env : Env) (st : St) (text voice : String) (speed : ℚ)
    (tr0 : List Event) : Except String Bool × St × List Event :=
  match env.kokoroRaises with
  | some e => (Except.error e, st, tr0 ++ [Event.synthKokoro text voice speed])
  | none =>
    if env.kokoroChunks.isEmpty then
      (Except.ok false, st, tr0 ++ [Event.synthKokoro text voice speed])
    else
      match env.sfWriteRaises with
      | some e =>
        (Except.error e, st,
         tr0 ++ [Event.synthKokoro text voice speed, Event.writeWav env.tmpName])
      | none =>
        let r := play_audio env env.tmpName
        (Except.ok r.1, st,
         tr0 ++ [Event.synthKokoro text voice speed, Event.writeWav env.tmpName]
             ++ r.2 ++ [Event.removeAttempt env.tmpName (!env.unlinkRaises)])

/-- Model of `_generate_kokoro`: imports (raise if kokoro or soundfile is absent),
per-language-code pipeline cache lookup (constructing and inserting on a
miss; a constructor exception escapes before the insert), then the
synthesis/playback/cleanup tail. -/
def _generate_kokoro (env : Env) (st : St) (text voice : String) (speed : ℚ) :
    Except String Bool × St × List Event :=
  if env.soundfileAvailable = false ∨ env.kokoroAvailable = false then
    (Except.error "ImportError", st, [])
  else
    let lang := get_lang_code voice
    if st.kokoroPipelines.contains lang then
      kokoroRun env st text voice speed []
    else
      match env.kpipelineRaises with
      | some e => (Except.error e, st, [])
      | none =>
        kokoroRun env { st with kokoroPipelines := st.kokoroPipelines ++ [lang] }
          text voice speed []

/-- The no-engine diagnostic logged by `generate_and_play`. -/
def noEngineMsg : String :=
  "MUSE TTS: No TTS engine found. Install mlx_audio (Mac) or kokoro (any platform)."

/-- The module state after `generate_and_play` has consulted the detector:
the engine cache is the cache the detector produced. -/
def postDetectSt (env : Env) (st : St) : St :=
  { engineCache := (detect_engine env st.engineCache).2.1,
    kokoroPipelines := st.kokoroPipelines }

/-- Model of `generate_and_play`: ask the detector for the engine, short-circuit on
"none", dispatch to the matching backend, and convert any backend exception
into a logged diagnostic plus `False`. -/
def generate_and_play (env : Env) (st : St) (text voice : String) (speed : ℚ) :
    Bool × St × List Event :=
  let d := detect_engine env st.engineCache
  let st1 := postDetectSt env st
  if d.1 = "none" then
    (false, st1, d.2.2 ++ [Event.logMsg noEngineMsg])
  else
    let r := if d.1 = "mlx" then _generate_mlx env st1 text voice speed
             else _generate_kokoro env st1 text voice speed
    match r.1 with
    | Except.ok b => (b, r.2.1, d.2.2 ++ r.2.2)
    | Except.error e =>
      (false, r.2.1, d.2.2 ++ r.2.2 ++ [Event.logMsg ("MUSE TTS error: " ++ e)])

/-- Python builtin `max` on two numbers: the second argument replaces the
first exactly when it is strictly greater (`Rat.blt a b` is the executable
strict-order test `a < b`). -/
def pymax (a b : ℚ) : ℚ := if Rat.blt a b then b else a

/-- Python builtin `min` on two numbers: the second argument replaces the
first exactly when it is strictly smaller. -/
def pymin (a b : ℚ) : ℚ := if Rat.blt b a then b else a

/-- The unknown-voice reply of `muse_speak`. -/
def unknownVoiceMsg (voice : String) : String :=
  "Unknown voice \x27" ++ voice ++ "\x27. Use muse_list_voices to see available voices."

/-- The failure reply of `muse_speak`. -/
def failedMsg : String :=
  "Failed to speak. Run muse_check to diagnose."

/-- The success reply of `muse_speak` (the model renders the float `speed`
with the rational `toString`). -/
def spokeMsg (text voice : String) (speed : ℚ) (engine : String) : String :=
  "Spoke: \"" ++ String.mk (text.data.take 100)
    ++ (if text.data.length > 100 then "..." else "")
    ++ "\" (voice: " ++ voice ++ ", speed: " ++ toString speed
    ++ ", engine: " ++ engine ++ ")"

/-- Model of `muse_speak`: substitute defaults for falsy (empty / zero) arguments,
validate the voice against the registry, clamp the speed, synthesize and
play, then re-read the engine for the confirmation message. -/
def muse_speak (env : Env) (st : St) (text voice0 : String) (speed0 : ℚ) :
    String × St × List Event :=
  let v := if voice0 = "" then env.kokoroVoice else voice0
  let sp := if speed0 = 0 then env.kokoroSpeed else speed0
  if v ∈ ALL_VOICE_IDS then
    let sp2 := pymax (mkRat 1 2) (pymin 2 sp)
    let g := generate_and_play env st text v sp2
    let d := detect_engine env g.2.1.engineCache
    let st2 : St := { engineCache := d.2.1, kokoroPipelines := g.2.1.kokoroPipelines }
    ((if g.1 then spokeMsg text v sp2 d.1 else failedMsg), st2, g.2.2 ++ d.2.2)
  else (unknownVoiceMsg v, st, [])

/-- The group-retention test of `muse_list_voices`: a group is skipped only
when a filter is given and is not a case-insensitive substring of the group
name. -/
def groupKept (language groupName : String) : Bool :=
  language = "" || strContainsSub (lowerStr groupName) (lowerStr language)

/-- The groups `muse_list_voices` renders for a given filter. -/
def matchedGroups (language : String) : List (String × List (String × String)) :=
  VOICES.filter (fun g => groupKept language g.1)

/-- Python `f"{voice_id:20s}"`: left-justified pad to width 20. -/
def padVoiceId (vid : String) : String :=
  vid ++ String.mk (List.replicate (20 - vid.data.length) ' ')

/-- One voice line of the listing, with the default marker. -/
def voiceLine (kv vid disp : String) : String :=
  "    " ++ padVoiceId vid ++ " " ++ disp
    ++ (if vid = kv then " <-- default" else "")

/-- The lines one rendered group contributes. -/
def groupLines (kv : String) (g : String × List (String × String)) : List String :=
  ("  " ++ g.1 ++ ":") :: (g.2.map (fun p => voiceLine kv p.1 p.2) ++ [""])

/-- The `lines` list of `muse_list_voices` just before the length check. -/
def baseLines (kv language : String) : List String :=
  ("Available Kokoro voices (default: " ++ kv ++ "):\n") ::
    (matchedGroups language).flatMap (groupLines kv)

/-- The total-count footer; it is computed from the full registry and does
not depend on the filter. -/
def totalFooter : String :=
  "Total: " ++ toString ALL_VOICE_IDS.length ++ " voices across "
    ++ toString VOICES.length ++ " languages"

/-- The full `lines` list of `muse_list_voices` on the non-empty path. -/
def finalLines (kv language : String) : List String :=
  baseLines kv language ++
    [totalFooter,
     "\nSet default voice: KOKORO_VOICE=am_onyx",
     "Set default speed:  KOKORO_SPEED=1.1"]

/-- The no-match reply of `muse_list_voices`. -/
def noMatchMsg (language : String) : String :=
  "No voices found matching \x27" ++ language
    ++ "\x27. Try: american, british, spanish, japanese, french, italian, hindi, portuguese, mandarin"

/-- Python `"\n".join`. -/
def joinWith (sep : String) : List String → String
  | [] => ""
  | [x] => x
  | x :: y :: xs => x ++ sep ++ joinWith sep (y :: xs)

/-- Model of `muse_list_voices`: build the grouped lines, return the guidance string
when nothing matched, otherwise append the footer lines and join. -/
def muse_list_voices (kv language : String) : String :=
  if (baseLines kv language).length ≤ 2 then noMatchMsg language
  else joinWith "\n" (finalLines kv language)

/-- The speed an event carries, when it is a synthesis call. -/
def synthSpeedOf : Event → Option ℚ
  | Event.synthMlx _ _ s => some s
  | Event.synthKokoro _ _ s => some s
  | _ => none

/-- Events the playback dispatcher can emit: player invocations and log
lines, nothing else. -/
def playishEvent : Event → Bool
  | Event.tryPlay _ => true
  | Event.logMsg _ => true
  | _ => false

/-- The first outcome in the candidate list whose binary exists (is not
`notFound`), if any. -/
def firstNonMissing : List PlayerOutcome → Option PlayerOutcome
  | [] => none
  | o :: rest =>
    if o = PlayerOutcome.notFound then firstNonMissing rest else some o

/-- The outcomes of the three Linux player candidates, in order. -/
def chainOutcomes (env : Env) (filepath : String) : List PlayerOutcome :=
  (linuxCandidates filepath).map (fun c => env.playerOutcome (c.headD ""))

/-- Claim C5 as stated: on the fallback-chain platform, the first player
that exists on the system and exits successfully makes play succeed (so
whenever some candidate both exists and exits successfully, play succeeds). -/
def claimedFallbackSuccess : Prop :=
  ∀ env filepath, env.system ≠ "Darwin" → env.system ≠ "Windows" →
    (∃ cmd, cmd ∈ linuxCandidates filepath ∧
        env.playerOutcome (cmd.headD "") = PlayerOutcome.success) →
    (play_audio env filepath).1 = true

/-- Claim C8 as stated: on the portable path the temporary file is removed
after playback, and the fast-native path likewise removes its well-known
output file after playback. -/
def claimedWavCleanup : Prop :=
  (∀ env st text voice speed,
     env.kokoroAvailable = true → env.soundfileAvailable = true →
     env.kpipelineRaises = none → env.kokoroRaises = none →
     env.sfWriteRaises = none → env.kokoroChunks ≠ [] →
     Event.removeAttempt env.tmpName (!env.unlinkRaises) ∈
       ((_generate_kokoro env st text voice speed).2.2 : List Event)) ∧
  (∀ env st text voice speed,
     env.mlxAvailable = true → env.mlxRaises = none →
     ∃ ok, Event.removeAttempt "./audio_000.wav" ok ∈
       ((_generate_mlx env st text voice speed).2.2 : List Event))

/-- A fully-working concrete environment: both backends importable, default
configuration, Linux with every player succeeding, one audio chunk. -/
def envW : Env :=
  { mlxAvailable := true, kokoroAvailable := true, soundfileAvailable := true,
    kokoroVoice := "am_fenrir", kokoroSpeed := 1, system := "Linux",
    playerOutcome := fun _ => PlayerOutcome.success,
    mlxRaises := none, kpipelineRaises := none, kokoroRaises := none,
    sfWriteRaises := none, kokoroChunks := [[0]], tmpName := "/tmp/x.wav",
    unlinkRaises := false }

/-- Fresh process state: nothing detected, no pipelines cached. -/
def stW : St := { engineCache := none, kokoroPipelines := [] }

/-- Variant of `envW` with an unregistered configured default voice. -/
def envBadDefault : Env := { envW with kokoroVoice := "not_a_voice" }

/-- Variant of `envW` forced onto the portable backend with a pipeline that yields no
audio chunks. -/
def envK : Env := { envW with mlxAvailable := false, kokoroChunks := [] }

/-- Variant of `envW` forced onto the portable backend, chunks present. -/
def envK2 : Env := { envW with mlxAvailable := false }

/-- Linux environment where `aplay` exists but exits non-zero while the
later candidates would succeed. -/
def envChainBad : Env :=
  { envW with playerOutcome :=
      fun b => if b = "aplay" then PlayerOutcome.exitNonZero else PlayerOutcome.success }

/-- Linux environment where `aplay` is missing and the later candidates
succeed. -/
def envChainGood : Env :=
  { envW with playerOutcome :=
      fun b => if b = "aplay" then PlayerOutcome.notFound else PlayerOutcome.success }

/-- The engine cache is always populated after a detection call, with
exactly the returned engine. -/
theorem detect_engine_cache_set (env : Env) (c : Option String) :
    (detect_engine env c).2.1 = some (detect_engine env c).1 := by
  cases c with
  | some e => rfl
  | none =>
    cases h1 : env.mlxAvailable <;> cases h2 : env.kokoroAvailable <;>
      simp [detect_engine, h1, h2]

/-- A detection call only ever emits import probes. -/
theorem detect_engine_events (env : Env) (c : Option String) :
    ∀ e ∈ (detect_engine env c).2.2,
      e = Event.probeMlx ∨ e = Event.probeKokoro := by
  intro e he
  cases c with
  | some x => simp [detect_engine] at he
  | none =>
    cases h1 : env.mlxAvailable <;> cases h2 : env.kokoroAvailable <;>
      simp [detect_engine, h1, h2] at he <;> tauto

/-- Claim C3: on its first invocation (empty cache) the detector probes the
fast-native import and locks in "mlx" when it loads; otherwise probes the
portable import and locks in "kokoro" when it loads; otherwise locks in
"none".  Exactly one of the three terminal states results, determined by the
two availability flags. -/
theorem detect_engine_first_invocation (env : Env) :
    (env.mlxAvailable = true ∧
      detect_engine env none = ("mlx", some "mlx", [Event.probeMlx])) ∨
    (env.mlxAvailable = false ∧ env.kokoroAvailable = true ∧
      detect_engine env none =
        ("kokoro", some "kokoro", [Event.probeMlx, Event.probeKokoro])) ∨
    (env.mlxAvailable = false ∧ env.kokoroAvailable = false ∧
      detect_engine env none =
        ("none", some "none", [Event.probeMlx, Event.probeKokoro])) := by
  cases h1 : env.mlxAvailable <;> cases h2 : env.kokoroAvailable <;>
    simp [detect_engine, h1, h2]

/-- Claim C7: once a detection call has returned, every later detection call
returns the identical cached result with no re-probing, even under a changed
environment. -/
theorem detect_engine_idempotent (env1 env2 : Env) (c : Option String) :
    detect_engine env2 (detect_engine env1 c).2.1 =
      ((detect_engine env1 c).1, (detect_engine env1 c).2.1, []) := by
  cases c with
  | some e => rfl
  | none =>
    cases h1 : env1.mlxAvailable <;> cases h2 : env1.kokoroAvailable <;>
      simp [detect_engine, h1, h2]

/-- Claim C1: `muse_speak` with a non-empty voice id outside the registry
returns the unknown-voice failure message, leaves the process state
untouched and emits no events at all: in particular the detector is never
invoked and no synthesis backend runs. -/
theorem muse_speak_unknown_voice (env : Env) (st : St) (text voice : String)
    (speed : ℚ) (hne : voice ≠ "") (hmem : voice ∉ ALL_VOICE_IDS) :
    muse_speak env st text voice speed = (unknownVoiceMsg voice, st, []) := by
  simp [muse_speak, hne, hmem]

theorem muse_speak_unknown_voice_witness :
    muse_speak envW stW "hello" "xx_bogus" 1 =
      (unknownVoiceMsg "xx_bogus", stW, []) :=
  muse_speak_unknown_voice envW stW "hello" "xx_bogus" 1 (by decide) (by decide)

/-- Claim C10: with an empty voice argument the configured default voice is
substituted first and then validated, so an unregistered default voice makes
`muse_speak` return the unknown-voice failure naming the default, with no
synthesis attempted. -/
theorem muse_speak_default_voice_checked (env : Env) (st : St) (text : String)
    (speed : ℚ) (hmem : env.kokoroVoice ∉ ALL_VOICE_IDS) :
    muse_speak env st text "" speed = (unknownVoiceMsg env.kokoroVoice, st, []) := by
  simp [muse_speak, hmem]

theorem muse_speak_default_voice_checked_witness :
    muse_speak envBadDefault stW "hello" "" 1 =
      (unknownVoiceMsg "not_a_voice", stW, []) :=
  muse_speak_default_voice_checked envBadDefault stW "hello" 1 (by decide)

/-- Claim C9: filtering the listing by "mandarin" keeps exactly the Mandarin
Chinese group; the registry holds 54 pairwise-distinct voice ids in 11
groups; the total-count footer is computed from the full registry, is
appended to the output lines for every filter, and appears verbatim in the
"mandarin" listing. -/
theorem muse_list_voices_mandarin :
    (matchedGroups "mandarin").map Prod.fst = ["Mandarin Chinese"] ∧
    ALL_VOICE_IDS.Nodup ∧ ALL_VOICE_IDS.length = 54 ∧ VOICES.length = 11 ∧
    totalFooter = "Total: 54 voices across 11 languages" ∧
    (∀ kv language, totalFooter ∈ finalLines kv language) ∧
    strContainsSub (muse_list_voices "am_fenrir" "mandarin") totalFooter = true := by
  refine ⟨by decide, by decide, by decide, by decide, by decide, ?_, ?_⟩
  · intro kv language
    simp [finalLines]
  · set_option maxRecDepth 20000 in decide

/-- The claim that a later successful player rescues the chain is refuted:
with `aplay` present but exiting non-zero and `paplay` succeeding, playback
fails. -/
theorem play_audio_first_success_refuted : ¬ claimedFallbackSuccess := by
  intro h
  have hx := h envChainBad "f.wav" (by decide) (by decide)
      ⟨["paplay", "f.wav"], by decide, by decide⟩
  exact absurd hx (by decide)

/-- Claim C5 (amended): on the fallback-chain platform the candidates are
tried in order and a missing binary is skipped; play succeeds exactly when
the first candidate whose binary exists exits successfully (a candidate that
exists but fails aborts the chain without trying later ones); when all three
binaries are missing, play fails and logs install guidance after attempting
each candidate in order. -/
theorem play_audio_fallback (env : Env) (filepath : String)
    (h1 : env.system ≠ "Darwin") (h2 : env.system ≠ "Windows") :
    ((play_audio env filepath).1 = true ↔
      firstNonMissing (chainOutcomes env filepath) = some PlayerOutcome.success) ∧
    (firstNonMissing (chainOutcomes env filepath) = none →
      play_audio env filepath =
        (false, [Event.tryPlay ["aplay", filepath],
                 Event.tryPlay ["paplay", filepath],
                 Event.tryPlay ["ffplay", "-nodisp", "-autoexit", filepath],
                 Event.logMsg noPlayerMsg])) := by
  rcases hA : env.playerOutcome "aplay" with _ | _ | _ | mA <;>
  rcases hP : env.playerOutcome "paplay" with _ | _ | _ | mP <;>
  rcases hF : env.playerOutcome "ffplay" with _ | _ | _ | mF <;>
    simp [play_audio, h1, h2, linuxChain, linuxCandidates, chainOutcomes,
      firstNonMissing, hA, hP, hF]

theorem play_audio_fallback_witness :
    (play_audio envChainGood "f.wav").1 = true :=
  (play_audio_fallback envChainGood "f.wav" (by decide) (by decide)).1.mpr (by decide)

/-- Every event the Linux candidate chain emits is a player invocation or a
log line. -/
theorem linuxChain_events (env : Env) :
    ∀ cs, ∀ e ∈ (linuxChain env cs).2, playishEvent e = true := by
  intro cs
  induction cs with
  | nil =>
    intro e he
    simp [linuxChain] at he
    subst he; rfl
  | cons cmd rest ih =>
    intro e he
    unfold linuxChain at he
    cases h : env.playerOutcome (cmd.headD "") with
    | success =>
      rw [h] at he
      simp at he
      subst he; rfl
    | notFound =>
      rw [h] at he
      simp at he
      rcases he with rfl | he
      · rfl
      · exact ih e he
    | exitNonZero =>
      rw [h] at he
      simp at he
      rcases he with rfl | rfl <;> rfl
    | otherError m =>
      rw [h] at he
      simp at he
      rcases he with rfl | rfl <;> rfl

/-- Every event the playback dispatcher emits is a player invocation or a
log line. -/
theorem play_audio_events (env : Env) (p : String) :
    ∀ e ∈ (play_audio env p).2, playishEvent e = true := by
  intro e he
  by_cases h1 : env.system = "Darwin"
  · cases h : env.playerOutcome "afplay" with
    | success => simp [play_audio, h1, h] at he; subst he; rfl
    | notFound => simp [play_audio, h1, h] at he; rcases he with rfl | rfl <;> rfl
    | exitNonZero => simp [play_audio, h1, h] at he; rcases he with rfl | rfl <;> rfl
    | otherError m => simp [play_audio, h1, h] at he; rcases he with rfl | rfl <;> rfl
  · by_cases h2 : env.system = "Windows"
    · cases h : env.playerOutcome "powershell" with
      | success => simp [play_audio, h1, h2, h] at he; subst he; rfl
      | notFound => simp [play_audio, h1, h2, h] at he; rcases he with rfl | rfl <;> rfl
      | exitNonZero => simp [play_audio, h1, h2, h] at he; rcases he with rfl | rfl <;> rfl
      | otherError m => simp [play_audio, h1, h2, h] at he; rcases he with rfl | rfl <;> rfl
    · simp [play_audio, h1, h2] at he
      exact linuxChain_events env _ e he

/-- A playback event never carries a synthesis speed and is never a file
removal. -/
theorem playish_no_speed (e : Event) (h : playishEvent e = true) :
    synthSpeedOf e = none ∧ ∀ p ok, e ≠ Event.removeAttempt p ok := by
  cases e <;> simp_all [playishEvent, synthSpeedOf]

/-- The fast-native synthesis path never attempts to remove any file: its
well-known output `./audio_000.wav` is left in place after playback. -/
theorem _generate_mlx_no_removal (env : Env) (st : St) (text voice : String)
    (speed : ℚ) (p : String) (ok : Bool) :
    Event.removeAttempt p ok ∉ (_generate_mlx env st text voice speed).2.2 := by
  intro he
  by_cases hA : env.mlxAvailable = false
  · simp [_generate_mlx, hA] at he
  · cases h : env.mlxRaises with
    | some m => simp [_generate_mlx, hA, h] at he
    | none =>
      simp [_generate_mlx, hA, h] at he
      exact absurd rfl ((playish_no_speed _ (play_audio_events env _ _ he)).2 p ok)

/-- Claim C8 is refuted on its fast-native half: a run of `_generate_mlx`
in a fully-working environment contains no removal of `./audio_000.wav`. -/
theorem wav_cleanup_refuted : ¬ claimedWavCleanup := by
  intro h
  rcases h.2 envW stW "hi" "af_bella" 1 rfl rfl with ⟨ok, hm⟩
  exact _generate_mlx_no_removal envW stW "hi" "af_bella" 1 "./audio_000.wav" ok hm

/-- Claim C8 (amended): on the portable path, whenever synthesis yields
chunks and reaches playback, the temporary file removal is attempted after
playback and the result is exactly the playback result — independently of
whether the removal itself fails (`os.unlink` errors are swallowed); the
fast-native path, by contrast, removes nothing, so its well-known output
file persists after playback. -/
theorem wav_cleanup_amended :
    (∀ env st text voice speed,
       env.kokoroAvailable = true → env.soundfileAvailable = true →
       env.kpipelineRaises = none → env.kokoroRaises = none →
       env.sfWriteRaises = none → env.kokoroChunks ≠ [] →
       (_generate_kokoro env st text voice speed).1 =
           Except.ok (play_audio env env.tmpName).1 ∧
       Event.removeAttempt env.tmpName (!env.unlinkRaises) ∈
           ((_generate_kokoro env st text voice speed).2.2 : List Event)) ∧
    (∀ env st text voice speed p ok,
       Event.removeAttempt p ok ∉ (_generate_mlx env st text voice speed).2.2) := by
  constructor
  · intro env st text voice speed hk hs hpl hr hw hc
    have hcc : env.kokoroChunks.isEmpty = false := by
      cases hx : env.kokoroChunks with
      | nil => exact absurd hx hc
      | cons a t => rfl
    by_cases hmem : get_lang_code voice ∈ st.kokoroPipelines
    · simp [_generate_kokoro, hk, hs, hmem, kokoroRun, hr, hw, hcc]
    · simp [_generate_kokoro, hk, hs, hmem, hpl, kokoroRun, hr, hw, hcc]
  · exact _generate_mlx_no_removal

theorem wav_cleanup_amended_witness :
    Event.removeAttempt "/tmp/x.wav" true ∈
      ((_generate_kokoro envK2 stW "hi" "af_bella" 1).2.2 : List Event) :=
  (wav_cleanup_amended.1 envK2 stW "hi" "af_bella" 1 rfl rfl rfl rfl rfl
    (by decide)).2

/-- Every event the fast-native path emits is its own synthesis call (with
the exact parameters it was given) or a playback event. -/
theorem _generate_mlx_events (env : Env) (st : St) (text voice : String)
    (speed : ℚ) :
    ∀ e ∈ (_generate_mlx env st text voice speed).2.2,
      e = Event.synthMlx text voice speed ∨ playishEvent e = true := by
  intro e he
  by_cases hA : env.mlxAvailable = false
  · simp [_generate_mlx, hA] at he
  · cases h : env.mlxRaises with
    | some m =>
      simp [_generate_mlx, hA, h] at he
      left; exact he
    | none =>
      simp [_generate_mlx, hA, h] at he
      rcases he with rfl | he
      · left; rfl
      · right; exact play_audio_events env _ e he

/-- Every event the portable synthesis tail emits is its own synthesis call
(with the exact parameters it was given), the temp-file write, a playback
event, or the temp-file removal. -/
theorem kokoroRun_events (env : Env) (st : St) (text voice : String) (speed : ℚ) :
    ∀ e ∈ (kokoroRun env st text voice speed []).2.2,
      e = Event.synthKokoro text voice speed ∨ e = Event.writeWav env.tmpName ∨
      playishEvent e = true ∨
      e = Event.removeAttempt env.tmpName (!env.unlinkRaises) := by
  intro e he
  cases hr : env.kokoroRaises with
  | some m =>
    simp [kokoroRun, hr] at he
    left; exact he
  | none =>
    by_cases hcc : env.kokoroChunks.isEmpty
    · simp [kokoroRun, hr, hcc] at he
      left; exact he
    · cases hw : env.sfWriteRaises with
      | some m =>
        simp [kokoroRun, hr, hcc, hw] at he
        rcases he with rfl | rfl
        · left; rfl
        · right; left; rfl
      | none =>
        simp [kokoroRun, hr, hcc, hw] at he
        rcases he with rfl | rfl | he | rfl
        · left; rfl
        · right; left; rfl
        · right; right; left; exact play_audio_events env _ e he
        · right; right; right; rfl

/-- Every event the portable path emits is its synthesis call, the temp-file
write, a playback event, or the temp-file removal. -/
theorem _generate_kokoro_events (env : Env) (st : St) (text voice : String)
    (speed : ℚ) :
    ∀ e ∈ (_generate_kokoro env st text voice speed).2.2,
      e = Event.synthKokoro text voice speed ∨ e = Event.writeWav env.tmpName ∨
      playishEvent e = true ∨
      e = Event.removeAttempt env.tmpName (!env.unlinkRaises) := by
  intro e he
  by_cases hI : env.soundfileAvailable = false ∨ env.kokoroAvailable = false
  · simp [_generate_kokoro, hI] at he
  · by_cases hmem : get_lang_code voice ∈ st.kokoroPipelines
    · simp [_generate_kokoro, hI, hmem] at he
      exact kokoroRun_events env _ text voice speed e he
    · cases hpl : env.kpipelineRaises with
      | some m => simp [_generate_kokoro, hI, hmem, hpl] at he
      | none =>
        simp [_generate_kokoro, hI, hmem, hpl] at he
        exact kokoroRun_events env _ text voice speed e he

/-- A synthesis event inside a fast-native run carries exactly the requested
speed. -/
theorem mlx_speed_of_mem (env : Env) (st : St) (text voice : String)
    (speed : ℚ) (e : Event) (q : ℚ)
    (he : e ∈ (_generate_mlx env st text voice speed).2.2)
    (hq : synthSpeedOf e = some q) : q = speed := by
  rcases _generate_mlx_events env st text voice speed e he with rfl | hp
  · simp [synthSpeedOf] at hq
    exact hq.symm
  · rw [(playish_no_speed e hp).1] at hq
    cases hq

/-- A synthesis event inside a portable run carries exactly the requested
speed. -/
theorem kokoro_speed_of_mem (env : Env) (st : St) (text voice : String)
    (speed : ℚ) (e : Event) (q : ℚ)
    (he : e ∈ (_generate_kokoro env st text voice speed).2.2)
    (hq : synthSpeedOf e = some q) : q = speed := by
  rcases _generate_kokoro_events env st text voice speed e he with rfl | rfl | hp | rfl
  · simp [synthSpeedOf] at hq
    exact hq.symm
  · cases hq
  · rw [(playish_no_speed e hp).1] at hq
    cases hq
  · cases hq

/-- A synthesis event inside `generate_and_play` carries exactly the
requested speed. -/
theorem generate_and_play_speed (env : Env) (st : St) (text voice : String)
    (speed : ℚ) (e : Event) (q : ℚ)
    (he : e ∈ (generate_and_play env st text voice speed).2.2)
    (hq : synthSpeedOf e = some q) : q = speed := by
  have hdet : ∀ x ∈ (detect_engine env st.engineCache).2.2, synthSpeedOf x = none := by
    intro x hx
    rcases detect_engine_events env _ x hx with rfl | rfl <;> rfl
  by_cases h0 : (detect_engine env st.engineCache).1 = "none"
  · simp [generate_and_play, h0] at he
    rcases he with he | rfl
    · rw [hdet e he] at hq; cases hq
    · cases hq
  · by_cases hm : (detect_engine env st.engineCache).1 = "mlx"
    · cases hres : (_generate_mlx env (postDetectSt env st) text voice speed).1 with
      | ok b =>
        simp [generate_and_play, h0, hm, hres] at he
        rcases he with he | he
        · rw [hdet e he] at hq; cases hq
        · exact mlx_speed_of_mem env _ text voice speed e q he hq
      | error m =>
        simp [generate_and_play, h0, hm, hres] at he
        rcases he with he | he | rfl
        · rw [hdet e he] at hq; cases hq
        · exact mlx_speed_of_mem env _ text voice speed e q he hq
        · cases hq
    · cases hres : (_generate_kokoro env (postDetectSt env st) text voice speed).1 with
      | ok b =>
        simp [generate_and_play, h0, hm, hres] at he
        rcases he with he | he
        · rw [hdet e he] at hq; cases hq
        · exact kokoro_speed_of_mem env _ text voice speed e q he hq
      | error m =>
        simp [generate_and_play, h0, hm, hres] at he
        rcases he with he | he | rfl
        · rw [hdet e he] at hq; cases hq
        · exact kokoro_speed_of_mem env _ text voice speed e q he hq
        · cases hq

/-- Claim C2: every synthesis call a `muse_speak` request makes carries the
speed `max(0.5, min(2.0, s))` where `s` is the request speed after default
substitution. -/
theorem muse_speak_speed_clamped (env : Env) (st : St) (text voice : String)
    (speed : ℚ) (e : Event) (q : ℚ)
    (he : e ∈ (muse_speak env st text voice speed).2.2)
    (hq : synthSpeedOf e = some q) :
    q = pymax (mkRat 1 2) (pymin 2 (if speed = 0 then env.kokoroSpeed else speed)) := by
  by_cases hv : (if voice = "" then env.kokoroVoice else voice) ∈ ALL_VOICE_IDS
  · simp [muse_speak, hv] at he
    rcases he with he | he
    · exact generate_and_play_speed env st text _ _ e q he hq
    · rcases detect_engine_events env _ e he with rfl | rfl <;> cases hq
  · simp [muse_speak, hv] at he

theorem muse_speak_speed_clamped_witness :
    Event.synthMlx "hi" "af_bella" (mkRat 1 2) ∈
      ((muse_speak envW stW "hi" "af_bella" (mkRat 1 10)).2.2 : List Event) ∧
    Event.synthMlx "hi" "af_bella" 2 ∈
      ((muse_speak envW stW "hi" "af_bella" 5).2.2 : List Event) ∧
    mkRat 1 2 =
      pymax (mkRat 1 2)
        (pymin 2 (if (mkRat 1 10 : ℚ) = 0 then envW.kokoroSpeed else mkRat 1 10)) :=
  ⟨by decide, by decide,
   muse_speak_speed_clamped envW stW "hi" "af_bella" (mkRat 1 10)
     (Event.synthMlx "hi" "af_bella" (mkRat 1 2)) (mkRat 1 2) (by decide) (by decide)⟩

/-- With zero audio chunks the portable path either returns `ok false` or
raises, and never invokes any player. -/
theorem _generate_kokoro_empty (env : Env) (st : St) (text voice : String)
    (speed : ℚ) (hchunks : env.kokoroChunks = []) :
    ((_generate_kokoro env st text voice speed).1 = Except.ok false ∨
      ∃ m, (_generate_kokoro env st text voice speed).1 = Except.error m) ∧
    ∀ cmd, Event.tryPlay cmd ∉ (_generate_kokoro env st text voice speed).2.2 := by
  have hcc : env.kokoroChunks.isEmpty = true := by rw [hchunks]; rfl
  by_cases hI : env.soundfileAvailable = false ∨ env.kokoroAvailable = false
  · refine ⟨Or.inr ⟨"ImportError", by simp [_generate_kokoro, hI]⟩, ?_⟩
    intro cmd hc
    simp [_generate_kokoro, hI] at hc
  · by_cases hmem : get_lang_code voice ∈ st.kokoroPipelines
    · cases hr : env.kokoroRaises with
      | some m =>
        refine ⟨Or.inr ⟨m, by simp [_generate_kokoro, hI, hmem, kokoroRun, hr]⟩, ?_⟩
        intro cmd hc
        simp [_generate_kokoro, hI, hmem, kokoroRun, hr] at hc
      | none =>
        refine ⟨Or.inl (by simp [_generate_kokoro, hI, hmem, kokoroRun, hr, hcc]), ?_⟩
        intro cmd hc
        simp [_generate_kokoro, hI, hmem, kokoroRun, hr, hcc] at hc
    · cases hpl : env.kpipelineRaises with
      | some m =>
        refine ⟨Or.inr ⟨m, by simp [_generate_kokoro, hI, hmem, hpl]⟩, ?_⟩
        intro cmd hc
        simp [_generate_kokoro, hI, hmem, hpl] at hc
      | none =>
        cases hr : env.kokoroRaises with
        | some m =>
          refine ⟨Or.inr ⟨m, by simp [_generate_kokoro, hI, hmem, hpl, kokoroRun, hr]⟩, ?_⟩
          intro cmd hc
          simp [_generate_kokoro, hI, hmem, hpl, kokoroRun, hr] at hc
        | none =>
          refine ⟨Or.inl (by simp [_generate_kokoro, hI, hmem, hpl, kokoroRun, hr, hcc]), ?_⟩
          intro cmd hc
          simp [_generate_kokoro, hI, hmem, hpl, kokoroRun, hr, hcc] at hc

/-- With the detector resolving to the portable backend and zero chunks,
`generate_and_play` fails and never invokes any player. -/
theorem generate_and_play_kokoro_empty (env : Env) (st : St)
    (text voice : String) (speed : ℚ)
    (heng : (detect_engine env st.engineCache).1 = "kokoro")
    (hchunks : env.kokoroChunks = []) :
    (generate_and_play env st text voice speed).1 = false ∧
    ∀ cmd, Event.tryPlay cmd ∉ (generate_and_play env st text voice speed).2.2 := by
  have hk := _generate_kokoro_empty env (postDetectSt env st) text voice speed hchunks
  have hdet : ∀ x ∈ (detect_engine env st.engineCache).2.2,
      ∀ cmd, x ≠ Event.tryPlay cmd := by
    intro x hx cmd
    rcases detect_engine_events env _ x hx with rfl | rfl <;> simp
  rcases hk.1 with hres | ⟨m, hres⟩
  · refine ⟨by simp [generate_and_play, heng, hres], ?_⟩
    intro cmd hc
    simp [generate_and_play, heng, hres] at hc
    rcases hc with hc | hc
    · exact hdet _ hc cmd rfl
    · exact hk.2 cmd hc
  · refine ⟨by simp [generate_and_play, heng, hres], ?_⟩
    intro cmd hc
    simp [generate_and_play, heng, hres] at hc
    rcases hc with hc | hc
    · exact hdet _ hc cmd rfl
    · exact hk.2 cmd hc

/-- Claim C4: with the portable backend active, a request whose pipeline
yields zero audio chunks is answered with the failure message and no player
is ever invoked — never a successful empty result. -/
theorem muse_speak_zero_chunks_failure (env : Env) (st : St)
    (text voice : String) (speed : ℚ)
    (hv : voice ∈ ALL_VOICE_IDS)
    (heng : (detect_engine env st.engineCache).1 = "kokoro")
    (hchunks : env.kokoroChunks = []) :
    (muse_speak env st text voice speed).1 = failedMsg ∧
    ∀ cmd, Event.tryPlay cmd ∉ (muse_speak env st text voice speed).2.2 := by
  have hne : voice ≠ "" := by
    rintro rfl
    exact absurd hv (by decide)
  have hv2 : (if voice = "" then env.kokoroVoice else voice) ∈ ALL_VOICE_IDS := by
    rw [if_neg hne]; exact hv
  have hg := generate_and_play_kokoro_empty env st text voice
      (pymax (mkRat 1 2) (pymin 2 (if speed = 0 then env.kokoroSpeed else speed)))
      heng hchunks
  refine ⟨?_, ?_⟩
  · simp [muse_speak, hne, hv, hg.1]
  · intro cmd hc
    simp [muse_speak, hne, hv] at hc
    rcases hc with hc | hc
    · exact hg.2 cmd hc
    · rcases detect_engine_events env _ _ hc with h | h <;> exact Event.noConfusion h

theorem muse_speak_zero_chunks_failure_witness :
    (muse_speak envK stW "hi" "af_bella" 1).1 = failedMsg ∧
    Event.tryPlay ["aplay", "/tmp/x.wav"] ∉
      ((muse_speak envK stW "hi" "af_bella" 1).2.2 : List Event) :=
  ⟨(muse_speak_zero_chunks_failure envK stW "hi" "af_bella" 1
      (by decide) (by decide) rfl).1,
   (muse_speak_zero_chunks_failure envK stW "hi" "af_bella" 1
      (by decide) (by decide) rfl).2 ["aplay", "/tmp/x.wav"]⟩

/-- Claim C6: `muse_speak` is a total function into strings — whatever the
environment does (backends missing or raising, players missing or failing),
the reply is one of the three message families and no exception escapes. -/
theorem muse_speak_always_returns (env : Env) (st : St) (text voice : String)
    (speed : ℚ) :
    (muse_speak env st text voice speed).1 =
        unknownVoiceMsg (if voice = "" then env.kokoroVoice else voice) ∨
    (muse_speak env st text voice speed).1 = failedMsg ∨
    ∃ engine, (muse_speak env st text voice speed).1 =
        spokeMsg text (if voice = "" then env.kokoroVoice else voice)
          (pymax (mkRat 1 2) (pymin 2 (if speed = 0 then env.kokoroSpeed else speed)))
          engine := by
  by_cases hv : (if voice = "" then env.kokoroVoice else voice) ∈ ALL_VOICE_IDS
  · by_cases hg : (generate_and_play env st text
        (if voice = "" then env.kokoroVoice else voice)
        (pymax (mkRat 1 2) (pymin 2 (if speed = 0 then env.kokoroSpeed else speed)))).1 = true
    · right; right
      refine ⟨(detect_engine env (generate_and_play env st text
          (if voice = "" then env.kokoroVoice else voice)
          (pymax (mkRat 1 2)
            (pymin 2 (if speed = 0 then env.kokoroSpeed else speed)))).2.1.engineCache).1, ?_⟩
      simp [muse_speak, hv, hg]
    · right; left
      rw [Bool.not_eq_true] at hg
      simp [muse_speak, hv, hg]
  · left
    simp [muse_speak, hv]
